import Mathlib

/-!
Verification of the `ProductionPlan` class from the
replace-derived-variable-with-query refactoring repository.

The repository holds two variants of one small JavaScript class:

* `src/multiple-sources/index.js` — the refactored class whose constructor
  takes a baseline: `constructor(production)` stores it in
  `_initialProduction`, and `get production()` returns
  `this._initialProduction + this._adjustments.reduce((sum, a) => sum + a.amount, 0)`.
* `src/single-source/index.js` — the pre-refactoring class with a stored
  accumulator: the constructor takes no argument, `_production` starts at 0,
  `applyAdjustment` pushes the adjustment and adds its `amount` to
  `_production`, and `get production()` returns the stored `_production`;
  `get calculatedProduction()` recomputes the sum over `_adjustments`.

Adjustment amounts are modelled as integers.  The constructor argument of the
multiple-sources variant is modelled as a JavaScript value, because the
class declares no default: calling `new ProductionPlan()` binds the
parameter to `undefined`, and `undefined + 0` evaluates to `NaN`.
-/

/-- JavaScript runtime values relevant to this program: numbers (modelled as
integers), the `undefined` value that an omitted argument binds to, and
`NaN`. -/
inductive JSVal where
  | num : Int → JSVal
  | undef : JSVal
  | nan : JSVal
deriving DecidableEq, Repr

/-- JavaScript numeric `+` on these values: two numbers add; if either
operand is `undefined` or `NaN` the result is `NaN`. -/
def jsAdd : JSVal → JSVal → JSVal
  | JSVal.num a, JSVal.num b => JSVal.num (a + b)
  | _, _ => JSVal.nan

/-- An adjustment record `{ amount }` with a signed numeric `amount`. -/
structure Adjustment where
  amount : Int
deriving DecidableEq, Repr

/-- Embeds `this._adjustments.reduce((sum, a) => sum + a.amount, 0)`:
a left fold over the array starting from 0. -/
def sumAmounts (adjustments : List Adjustment) : Int :=
  adjustments.foldl (fun sum a => sum + a.amount) 0

namespace MultipleSources

/-- State of the `ProductionPlan` class of `src/multiple-sources/index.js`:
the two instance fields set by its constructor. -/
structure ProductionPlan where
  _initialProduction : JSVal
  _adjustments : List Adjustment
deriving DecidableEq, Repr

/-- Embeds `constructor(production)`: stores the argument in
`_initialProduction` and starts with an empty `_adjustments` array. -/
def ProductionPlan.new (production : JSVal) : ProductionPlan :=
  { _initialProduction := production, _adjustments := [] }

/-- Embeds JavaScript call semantics for `new ProductionPlan(...)`: the single
declared parameter binds the first argument, or `undefined` when the call
supplies none; extra arguments are ignored. -/
def ProductionPlan.newJS (args : List JSVal) : ProductionPlan :=
  ProductionPlan.new (args.headD JSVal.undef)

/-- Embeds `get production()`, which returns
`this._initialProduction + this._adjustments.reduce((sum, a) => sum + a.amount, 0)`. -/
def ProductionPlan.production (p : ProductionPlan) : JSVal :=
  jsAdd p._initialProduction (JSVal.num (sumAmounts p._adjustments))

/-- Embeds `applyAdjustment(anAdjustment)`, whose body is
`this._adjustments.push(anAdjustment)`: the new element goes to the end of
the array and no other field is assigned. -/
def ProductionPlan.applyAdjustment (p : ProductionPlan) (anAdjustment : Adjustment) :
    ProductionPlan :=
  { p with _adjustments := p._adjustments ++ [anAdjustment] }

/-- The `production` getter as a state transformer: its body only reads
fields and performs no assignment, so it returns the computed value and
leaves the instance state unchanged. -/
def ProductionPlan.productionRead (p : ProductionPlan) : JSVal × ProductionPlan :=
  (p.production, p)

/-- The state after running the `production` getter once. -/
def readStep (p : ProductionPlan) : ProductionPlan :=
  (p.productionRead).2

/-- Apply a sequence of adjustments in order, via `applyAdjustment`. -/
def ProductionPlan.applyAll (p : ProductionPlan) (adjs : List Adjustment) : ProductionPlan :=
  adjs.foldl ProductionPlan.applyAdjustment p

end MultipleSources

namespace SingleSource

/-- State of the `ProductionPlan` class of `src/single-source/index.js`:
the two instance fields set by its constructor. -/
structure ProductionPlan where
  _adjustments : List Adjustment
  _production : Int
deriving DecidableEq, Repr

/-- Embeds `constructor()`: declares no parameter, starts with an empty
`_adjustments` array and `_production = 0`. -/
def ProductionPlan.new : ProductionPlan :=
  { _adjustments := [], _production := 0 }

/-- Embeds JavaScript call semantics for `new ProductionPlan(...)`: the
constructor declares no parameter, so every supplied argument is ignored. -/
def ProductionPlan.newJS (_args : List JSVal) : ProductionPlan :=
  ProductionPlan.new

/-- Embeds `get production()`, which returns the stored `this._production`. -/
def ProductionPlan.production (p : ProductionPlan) : Int :=
  p._production

/-- Embeds `get calculatedProduction()`, which returns
`this._adjustments.reduce((sum, a) => sum + a.amount, 0)`. -/
def ProductionPlan.calculatedProduction (p : ProductionPlan) : Int :=
  sumAmounts p._adjustments

/-- Embeds `applyAdjustment(anAdjustment)`:
`this._adjustments.push(anAdjustment); this._production += anAdjustment.amount;`. -/
def ProductionPlan.applyAdjustment (p : ProductionPlan) (anAdjustment : Adjustment) :
    ProductionPlan :=
  { _adjustments := p._adjustments ++ [anAdjustment],
    _production := p._production + anAdjustment.amount }

/-- The `production` getter as a state transformer: its body only reads a
field and performs no assignment, so it returns the value and leaves the
instance state unchanged. -/
def ProductionPlan.productionRead (p : ProductionPlan) : Int × ProductionPlan :=
  (p.production, p)

/-- The state after running the `production` getter once. -/
def readStep (p : ProductionPlan) : ProductionPlan :=
  (p.productionRead).2

/-- Apply a sequence of adjustments in order, via `applyAdjustment`. -/
def ProductionPlan.applyAll (p : ProductionPlan) (adjs : List Adjustment) : ProductionPlan :=
  adjs.foldl ProductionPlan.applyAdjustment p

end SingleSource

/-! ## Helper lemmas -/

theorem foldl_add_amount (init : Int) (l : List Adjustment) :
    l.foldl (fun sum a => sum + a.amount) init = init + (l.map Adjustment.amount).sum := by
  induction l generalizing init with
  | nil => simp
  | cons a t ih =>
      simp only [List.foldl_cons, List.map_cons, List.sum_cons, ih]
      ring

theorem sumAmounts_eq_sum (l : List Adjustment) :
    sumAmounts l = (l.map Adjustment.amount).sum := by
  simpa using foldl_add_amount 0 l

theorem ms_applyAll_adjustments (p : MultipleSources.ProductionPlan)
    (adjs : List Adjustment) :
    (p.applyAll adjs)._adjustments = p._adjustments ++ adjs := by
  induction adjs generalizing p with
  | nil => simp [MultipleSources.ProductionPlan.applyAll]
  | cons a t ih =>
      simp [MultipleSources.ProductionPlan.applyAll, List.foldl_cons] at ih ⊢
      rw [ih]
      simp [MultipleSources.ProductionPlan.applyAdjustment]

theorem ms_applyAll_initialProduction (p : MultipleSources.ProductionPlan)
    (adjs : List Adjustment) :
    (p.applyAll adjs)._initialProduction = p._initialProduction := by
  induction adjs generalizing p with
  | nil => rfl
  | cons a t ih =>
      simp [MultipleSources.ProductionPlan.applyAll, List.foldl_cons] at ih ⊢
      rw [ih]
      rfl

theorem ms_production_applyAll (i : Int) (adjs : List Adjustment) :
    ((MultipleSources.ProductionPlan.new (JSVal.num i)).applyAll adjs).production
      = JSVal.num (i + (adjs.map Adjustment.amount).sum) := by
  rw [MultipleSources.ProductionPlan.production, ms_applyAll_adjustments,
    ms_applyAll_initialProduction]
  simp [MultipleSources.ProductionPlan.new, sumAmounts_eq_sum, jsAdd]

theorem ss_applyAll_adjustments (p : SingleSource.ProductionPlan)
    (adjs : List Adjustment) :
    (p.applyAll adjs)._adjustments = p._adjustments ++ adjs := by
  induction adjs generalizing p with
  | nil => simp [SingleSource.ProductionPlan.applyAll]
  | cons a t ih =>
      simp [SingleSource.ProductionPlan.applyAll, List.foldl_cons] at ih ⊢
      rw [ih]
      simp [SingleSource.ProductionPlan.applyAdjustment]

theorem ss_applyAll_production_field (p : SingleSource.ProductionPlan)
    (adjs : List Adjustment) :
    (p.applyAll adjs)._production = p._production + (adjs.map Adjustment.amount).sum := by
  induction adjs generalizing p with
  | nil => simp [SingleSource.ProductionPlan.applyAll]
  | cons a t ih =>
      simp [SingleSource.ProductionPlan.applyAll, List.foldl_cons] at ih ⊢
      rw [ih]
      simp [SingleSource.ProductionPlan.applyAdjustment]
      ring

theorem ss_production_applyAll (adjs : List Adjustment) :
    (SingleSource.ProductionPlan.new.applyAll adjs).production
      = (adjs.map Adjustment.amount).sum := by
  rw [SingleSource.ProductionPlan.production, ss_applyAll_production_field]
  simp [SingleSource.ProductionPlan.new]

/-! ## Claim theorems -/

/-- C1: for every numeric baseline `i` and every sequence of adjustments
applied in order with `applyAdjustment`, a subsequent read of `production`
returns the baseline plus the sum of the amounts, whatever the signs or
magnitudes of the individual amounts; in the single-source variant the
baseline is 0. -/
theorem C1_production_is_baseline_plus_sum :
    (∀ (i : Int) (adjs : List Adjustment),
      ((MultipleSources.ProductionPlan.new (JSVal.num i)).applyAll adjs).production
        = JSVal.num (i + (adjs.map Adjustment.amount).sum)) ∧
    (∀ adjs : List Adjustment,
      (SingleSource.ProductionPlan.new.applyAll adjs).production
        = (adjs.map Adjustment.amount).sum) :=
  ⟨ms_production_applyAll, ss_production_applyAll⟩

/-- C2 counterexample: the multiple-sources constructor implements no default
baseline.  Calling `new ProductionPlan()` with the argument omitted binds the
parameter to `undefined`, and the subsequent `production` read evaluates
`undefined + 0`, which is `NaN` — not `0` as the claim states. -/
theorem C2_counterexample_omitted_arg_gives_nan :
    ¬ ((MultipleSources.ProductionPlan.newJS []).production = JSVal.num 0) := by
  decide

/-- C2 (amended): for the single-source variant, a plan built by
`new ProductionPlan()` with no adjustments applied reads `production` as 0;
for the multiple-sources variant there is no default — with the argument
omitted, `_initialProduction` is `undefined` and `production` returns `NaN`. -/
theorem C2_amended_default_baseline :
    SingleSource.ProductionPlan.newJS [] = SingleSource.ProductionPlan.new ∧
    (SingleSource.ProductionPlan.newJS []).production = 0 ∧
    (MultipleSources.ProductionPlan.newJS [])._initialProduction = JSVal.undef ∧
    (MultipleSources.ProductionPlan.newJS []).production = JSVal.nan := by
  refine ⟨rfl, rfl, rfl, rfl⟩

/-- C3 counterexample: in the single-source variant, `applyAdjustment` does
change a state component other than the adjustments sequence — it increments
the stored `_production` field (here from 0 to 10). -/
theorem C3_counterexample_production_field_changes :
    (SingleSource.ProductionPlan.new.applyAdjustment { amount := 10 })._production
      ≠ SingleSource.ProductionPlan.new._production := by
  decide

/-- C3 (amended): in both variants, `applyAdjustment` appends the adjustment
to the end of the `_adjustments` sequence, so its length grows by exactly one
and the existing elements and their order are unchanged.  In the
multiple-sources variant no other state component changes; in the
single-source variant the stored `_production` field is additionally
incremented by the adjustment's amount. -/
theorem C3_amended_applyAdjustment_appends :
    (∀ (p : MultipleSources.ProductionPlan) (a : Adjustment),
      (p.applyAdjustment a)._adjustments = p._adjustments ++ [a] ∧
      (p.applyAdjustment a)._adjustments.length = p._adjustments.length + 1 ∧
      (p.applyAdjustment a)._initialProduction = p._initialProduction) ∧
    (∀ (p : SingleSource.ProductionPlan) (a : Adjustment),
      (p.applyAdjustment a)._adjustments = p._adjustments ++ [a] ∧
      (p.applyAdjustment a)._adjustments.length = p._adjustments.length + 1 ∧
      (p.applyAdjustment a)._production = p._production + a.amount) := by
  refine ⟨fun p a => ⟨rfl, by simp [MultipleSources.ProductionPlan.applyAdjustment], rfl⟩,
    fun p a => ⟨rfl, by simp [SingleSource.ProductionPlan.applyAdjustment], rfl⟩⟩

/-- C4: for every multiple-sources plan whose adjustments sequence is empty
and whose baseline is numeric (the declared input domain), reading
`production` returns exactly the `_initialProduction` value fixed at
construction; the read is a total function with no error branch. -/
theorem C4_empty_adjustments_reads_baseline
    (p : MultipleSources.ProductionPlan) (i : Int)
    (hinit : p._initialProduction = JSVal.num i)
    (hadj : p._adjustments = []) :
    p.production = p._initialProduction := by
  simp [MultipleSources.ProductionPlan.production, hinit, hadj, sumAmounts, jsAdd]

/-- Witness for C4 at the concrete plan `new ProductionPlan(7)`. -/
theorem C4_empty_adjustments_reads_baseline_witness :
    (MultipleSources.ProductionPlan.new (JSVal.num 7)).production
      = (MultipleSources.ProductionPlan.new (JSVal.num 7))._initialProduction :=
  C4_empty_adjustments_reads_baseline (MultipleSources.ProductionPlan.new (JSVal.num 7)) 7
    rfl rfl

/-- C5: `_initialProduction` is fixed at construction and never mutated: it
still holds the constructor's argument after any sequence of
`applyAdjustment` calls, a single `applyAdjustment` leaves it unchanged from
any state, and running the `production` getter leaves the whole state
unchanged. -/
theorem C5_initialProduction_immutable :
    (∀ (init : JSVal) (adjs : List Adjustment),
      ((MultipleSources.ProductionPlan.new init).applyAll adjs)._initialProduction = init) ∧
    (∀ (p : MultipleSources.ProductionPlan) (a : Adjustment),
      (p.applyAdjustment a)._initialProduction = p._initialProduction) ∧
    (∀ p : MultipleSources.ProductionPlan, (p.productionRead).2 = p) :=
  ⟨fun init adjs => ms_applyAll_initialProduction (MultipleSources.ProductionPlan.new init) adjs,
    fun _ _ => rfl, fun _ => rfl⟩

/-- C6: every operation of both variants — construction with any argument
list, reading `production`, and `applyAdjustment` — is total over its
declared input domain: each one returns a result for every input and
reachable state, and the code has no error branch that could be reached. -/
theorem C6_operations_total :
    (∀ args : List JSVal, ∃ p, MultipleSources.ProductionPlan.newJS args = p) ∧
    (∀ p : MultipleSources.ProductionPlan, ∃ v, p.production = v) ∧
    (∀ (p : MultipleSources.ProductionPlan) (a : Adjustment), ∃ q, p.applyAdjustment a = q) ∧
    (∀ args : List JSVal, ∃ p, SingleSource.ProductionPlan.newJS args = p) ∧
    (∀ p : SingleSource.ProductionPlan, ∃ v, p.production = v) ∧
    (∀ (p : SingleSource.ProductionPlan) (a : Adjustment), ∃ q, p.applyAdjustment a = q) :=
  ⟨fun args => ⟨_, rfl⟩, fun p => ⟨_, rfl⟩, fun p a => ⟨_, rfl⟩,
    fun args => ⟨_, rfl⟩, fun p => ⟨_, rfl⟩, fun p a => ⟨_, rfl⟩⟩

/-- C7: reading `production` is idempotent and side-effect free in both
variants: after any number `n` of consecutive reads the state equals the
original state, and the next read still returns the original value. -/
theorem C7_reads_idempotent_and_pure :
    (∀ (p : MultipleSources.ProductionPlan) (n : Nat),
      MultipleSources.readStep^[n] p = p ∧
      ((MultipleSources.readStep^[n] p).productionRead).1 = p.production) ∧
    (∀ (p : SingleSource.ProductionPlan) (n : Nat),
      SingleSource.readStep^[n] p = p ∧
      ((SingleSource.readStep^[n] p).productionRead).1 = p.production) := by
  constructor
  · intro p n
    have h : MultipleSources.readStep^[n] p = p := Function.iterate_fixed rfl n
    exact ⟨h, by rw [h]; rfl⟩
  · intro p n
    have h : SingleSource.readStep^[n] p = p := Function.iterate_fixed rfl n
    exact ⟨h, by rw [h]; rfl⟩

/-- C8: order-independence — for every numeric baseline and every two
adjustment sequences that are permutations of the same multiset, applying
each sequence in order to a fresh plan yields the same final `production`
value, in both variants. -/
theorem C8_order_independence (i : Int) (l1 l2 : List Adjustment)
    (h : l1.Perm l2) :
    ((MultipleSources.ProductionPlan.new (JSVal.num i)).applyAll l1).production
      = ((MultipleSources.ProductionPlan.new (JSVal.num i)).applyAll l2).production ∧
    (SingleSource.ProductionPlan.new.applyAll l1).production
      = (SingleSource.ProductionPlan.new.applyAll l2).production := by
  have hsum : (l1.map Adjustment.amount).sum = (l2.map Adjustment.amount).sum :=
    (h.map Adjustment.amount).sum_eq
  refine ⟨?_, ?_⟩
  · rw [ms_production_applyAll, ms_production_applyAll, hsum]
  · rw [ss_production_applyAll, ss_production_applyAll, hsum]

/-- Witness for C8 at baseline 5 and the concrete permuted sequences
`[{amount: 1}, {amount: -2}, {amount: 3}]` and
`[{amount: 3}, {amount: 1}, {amount: -2}]`. -/
theorem C8_order_independence_witness :
    ((MultipleSources.ProductionPlan.new (JSVal.num 5)).applyAll
        [{ amount := 1 }, { amount := -2 }, { amount := 3 }]).production
      = ((MultipleSources.ProductionPlan.new (JSVal.num 5)).applyAll
        [{ amount := 3 }, { amount := 1 }, { amount := -2 }]).production ∧
    (SingleSource.ProductionPlan.new.applyAll
        [{ amount := 1 }, { amount := -2 }, { amount := 3 }]).production
      = (SingleSource.ProductionPlan.new.applyAll
        [{ amount := 3 }, { amount := 1 }, { amount := -2 }]).production :=
  C8_order_independence 5 [{ amount := 1 }, { amount := -2 }, { amount := 3 }]
    [{ amount := 3 }, { amount := 1 }, { amount := -2 }] (by decide)

/-- C9: single-source invariant — in every state reachable by construction
followed by a sequence of `applyAdjustment` calls, the stored `_production`
field equals the sum of the amounts in `_adjustments`, so the `production`
getter and the `calculatedProduction` getter agree. -/
theorem C9_single_source_accumulator_invariant (adjs : List Adjustment) :
    (SingleSource.ProductionPlan.new.applyAll adjs)._production
      = sumAmounts (SingleSource.ProductionPlan.new.applyAll adjs)._adjustments ∧
    (SingleSource.ProductionPlan.new.applyAll adjs).production
      = (SingleSource.ProductionPlan.new.applyAll adjs).calculatedProduction := by
  have hfield := ss_applyAll_production_field SingleSource.ProductionPlan.new adjs
  have hadj := ss_applyAll_adjustments SingleSource.ProductionPlan.new adjs
  have hp : (SingleSource.ProductionPlan.new.applyAll adjs)._production
      = sumAmounts (SingleSource.ProductionPlan.new.applyAll adjs)._adjustments := by
    rw [hfield, hadj, sumAmounts_eq_sum]
    simp [SingleSource.ProductionPlan.new]
  exact ⟨hp, hp⟩

/-- C10: the single-source constructor declares no parameter, so every
argument supplied at a `new ProductionPlan(...)` call is ignored: whatever
the argument list, the fresh plan equals the no-argument construction and
its `production` reads 0 — there is no way to set a nonzero initial
production in this variant. -/
theorem C10_single_constructor_ignores_arguments (args : List JSVal) :
    SingleSource.ProductionPlan.newJS args = SingleSource.ProductionPlan.new ∧
    (SingleSource.ProductionPlan.newJS args).production = 0 :=
  ⟨rfl, rfl⟩
